import Mathlib

/-!
Verification development for the Onitu synchronization engine.

The definitions below are shallow embeddings of the Python source:
  - onitu/plug/metadata.py and onitu/api/main (fid addressing),
  - onitu/api/router.py (chunk server),
  - drivers/local_storage (local filesystem driver),
  - drivers/dropbox (Dropbox driver).

Conventions: per-driver extras, the conflict map, the synced-status map
and the filesystem are modelled as association lists with string keys,
matching the dict / key-value-store semantics of the source (a single
binding per key, lookup by key). Byte strings are modelled as List Nat.
Backend failures (raised SDK exceptions, failed system calls) are
modelled as explicit error values; a raised exception leaves the state
exactly as it was at the raise point, as in Python.
-/

set_option linter.unusedVariables false

universe u

variable {β : Type u}

/-- Lookup in an association list with string keys, mirroring dict access
and key-value-store get in the source. -/
def alookup (k : String) : List (String × β) → Option β
  | [] => none
  | (j, v) :: rest => if j = k then some v else alookup k rest

/-- Removal of a key, mirroring del d[k] / store delete. -/
def aremove (k : String) : List (String × β) → List (String × β)
  | [] => []
  | (j, v) :: rest => if j = k then aremove k rest else (j, v) :: aremove k rest

/-- Insertion or update of a binding, mirroring d[k] = v / store put. -/
def ainsert (k : String) (v : β) (m : List (String × β)) : List (String × β) :=
  (k, v) :: aremove k m

theorem alookup_aremove_self (k : String) (m : List (String × β)) :
    alookup k (aremove k m) = none := by
  induction m with
  | nil => rfl
  | cons p rest ih =>
    by_cases h : p.1 = k
    · simpa [aremove, h] using ih
    · simpa [aremove, alookup, h] using ih

theorem alookup_aremove_ne {j k : String} (h : j ≠ k) (m : List (String × β)) :
    alookup k (aremove j m) = alookup k m := by
  induction m with
  | nil => rfl
  | cons p rest ih =>
    by_cases hp : p.1 = j
    · have hpk : p.1 ≠ k := by
        rw [hp]; exact h
      simp [aremove, alookup, hp, hpk, h, ih]
    · by_cases hk : p.1 = k
      · have hkj : ¬ (k = j) := fun hkj => h hkj.symm
        simp [aremove, alookup, hp, hk, hkj]
      · simp [aremove, alookup, hp, hk, ih]

theorem alookup_ainsert_self (k : String) (v : β) (m : List (String × β)) :
    alookup k (ainsert k v m) = some v := by
  simp [ainsert, alookup]

theorem alookup_ainsert_ne {j k : String} (h : j ≠ k) (v : β)
    (m : List (String × β)) :
    alookup k (ainsert j v m) = alookup k m := by
  simp [ainsert, alookup, h, alookup_aremove_ne h]

namespace Onitu

/-- Strips every trailing slash from the folder component, as required by
the canonicalization step of the fid addressing scheme. -/
def strip_trailing_slashes (folder : String) : String :=
  String.mk ((folder.data.reverse.dropWhile (fun c => c = '/')).reverse)

/-- Modelled from the spec: onitu.utils.get_fid is not part of src/ (only
its call sites in onitu/plug/metadata.py and onitu/api are). Per spec
section 4.2, fid(folder, filename) is a 128-bit identifier obtained by
hashing the canonicalized tuple; canonicalization NFC-normalizes the
filename (the identity on the ASCII inputs used here) and strips trailing
slashes on the folder, preserving case. The spec relies on collision
resistance with no secondary disambiguation, so the hash is idealized as
injective: the model represents a fid by the canonical pair itself. -/
def get_fid (folder filename : String) : String × String :=
  (strip_trailing_slashes folder, filename)

/-- The fid computed by the REST layer (onitu/api, get_file_id), which
calls get_fid with both the folder and the name. -/
def rest_get_file_id (folder name : String) : String × String :=
  get_fid folder name

end Onitu

/-- Claim C1: the fid is claimed to be a pure function of the pair
(folder, filename), with the fid computed at Metadata instantiation equal
to the fid computed by the REST layer from the same pair, and with a
change of either component changing the fid. In the source,
Metadata (onitu/plug/metadata.py, line 44) computes the fid by calling
get_fid with the filename alone - the Metadata constructor has no folder
parameter at all - so the Metadata-side fid is some function of the
filename only. This theorem shows no function of the filename alone can
agree with the REST-layer fid on every (folder, name) pair, and exhibits
the concrete folders on which they must disagree. -/
theorem metadata_fid_cannot_match_rest_fid :
    (¬ ∃ F : String → String × String,
      ∀ folder name, F name = Onitu.rest_get_file_id folder name) ∧
    Onitu.rest_get_file_id "music" "a.txt" ≠ Onitu.rest_get_file_id "docs" "a.txt" := by
  constructor
  · rintro ⟨F, hF⟩
    have h1 := hF "music" "a.txt"
    have h2 := hF "docs" "a.txt"
    rw [h1] at h2
    exact absurd h2 (by decide)
  · decide

namespace LocalStorage

/-- Bytes read by the local-storage get_chunk handler: the source opens
the file, seeks to offset and reads size bytes, which returns the bytes
of the file from offset on, truncated to size. -/
def get_chunk (content : List Nat) (offset size : Nat) : List Nat :=
  (content.drop offset).take size

end LocalStorage

namespace Router

/-- Read-chunk callback wired to a filesystem of named contents; the
claim under verification only concerns files that exist, where this is
the local-storage get_chunk handler. -/
def read_chunk_fs (fs : List (String × List Nat)) (filename : String)
    (offset size : Nat) : List Nat :=
  LocalStorage.get_chunk ((alookup filename fs).getD []) offset size

/-- The respond-to step of the Router thread (onitu/api/router.py): it
calls read_chunk on the request and sends a multipart reply made of the
peer identity frame followed by a single frame holding the chunk. -/
def respond_to (read_chunk : String → Nat → Nat → List Nat)
    (idframe : List Nat) (filename : String) (offset size : Nat) :
    List (List Nat) :=
  [idframe, read_chunk filename offset size]

end Router

/-- Claim C2: for a file of the given content and a request with
offset at most the file size, the get_chunk handler returns exactly
min(size, file_size - offset) bytes, and the chunk server replies with
the identity frame followed by a single frame holding exactly those
bytes. -/
theorem router_chunk_reply_exact (fs : List (String × List Nat))
    (filename : String) (content : List Nat) (offset size : Nat)
    (idframe : List Nat)
    (hfile : alookup filename fs = some content)
    (hoff : offset ≤ content.length) :
    Router.respond_to (Router.read_chunk_fs fs) idframe filename offset size
      = [idframe, LocalStorage.get_chunk content offset size] ∧
    (LocalStorage.get_chunk content offset size).length
      = min size (content.length - offset) := by
  constructor
  · simp [Router.respond_to, Router.read_chunk_fs, hfile]
  · simp [LocalStorage.get_chunk]

/-- Witness for claim C2 at a concrete file and request. -/
theorem router_chunk_reply_exact_witness :
    alookup "f" [("f", [7, 8, 9])] = some [7, 8, 9] ∧ (2 : Nat) ≤ 3 ∧
    (Router.respond_to (Router.read_chunk_fs [("f", [7, 8, 9])]) [1] "f" 2 5
        = [[1], LocalStorage.get_chunk [7, 8, 9] 2 5] ∧
      (LocalStorage.get_chunk [7, 8, 9] 2 5).length = min 5 (3 - 2)) :=
  ⟨by decide, by decide,
    router_chunk_reply_exact [("f", [7, 8, 9])] "f" [7, 8, 9] 2 5 [1]
      (by decide) (by decide)⟩

/-- Metadata of an Onitu file as seen by a driver: the filename, the
size, and the per-driver extras (onitu/plug/metadata.py). -/
structure Metadata where
  filename : String
  size : Nat
  extra : List (String × String)
deriving DecidableEq

namespace Dropbox

/-- Prefixes the Onitu filename with the root option, adding a slash
separator when the root does not already end with one
(root_prefixed_filename in the Dropbox driver; the endswith test on the
single-character pattern is expressed as a last-character test). -/
def root_prefixed_filename (root filename : String) : String :=
  (if root.data.getLastD ' ' = '/' then root else root ++ "/") ++ filename

/-- Linear search of the conflict map for an Onitu-side filename,
returning the mapped Dropbox-side name of the first matching entry
(conflicting_filename in the Dropbox driver, with value set to False;
entries are listed with the leading conflict: prefix already stripped,
as after line 82 of the source). -/
def conflicting_filename (confs : List (String × String)) (filename : String) :
    Option String :=
  match confs with
  | [] => none
  | (o, d) :: rest =>
    if o = filename then some d else conflicting_filename rest filename

/-- Resolution of an Onitu filename to the Dropbox-side name: the root
gets prefixed, then the conflict map is consulted and the mapped name
wins when the lookup result is truthy - the source guards the
replacement with if conflict_name: (dropbox_driver.py line 116), so an
entry whose mapped name is the empty string is ignored and the
root-prefixed name is kept (get_dropbox_filename in the source). -/
def get_dropbox_filename (root : String) (confs : List (String × String))
    (metadata : Metadata) : String :=
  let filename := root_prefixed_filename root metadata.filename
  match conflicting_filename confs filename with
  | some c => if c = "" then filename else c
  | none => filename

/-- The Dropbox-side path named by the get_chunk handler in its request
URL (line 123 and 130 of the Dropbox driver). -/
def get_chunk_request_path (root : String) (confs : List (String × String))
    (metadata : Metadata) : String :=
  get_dropbox_filename root confs metadata

/-- The Dropbox-side name resolved at the start of the upload_chunk
handler (line 151 of the Dropbox driver; the chunked-upload SDK call
itself is addressed by upload id, the resolved name is the one the
handler reports). -/
def upload_chunk_resolved_name (root : String) (confs : List (String × String))
    (metadata : Metadata) : String :=
  get_dropbox_filename root confs metadata

/-- The Dropbox-side path named by the delete_file handler (line 287 and
290 of the Dropbox driver). -/
def delete_file_request_path (root : String) (confs : List (String × String))
    (metadata : Metadata) : String :=
  get_dropbox_filename root confs metadata

/-- The pair of Dropbox-side paths named by the move_file handler
(lines 241-250 of the Dropbox driver). -/
def move_file_request_paths (root : String) (confs : List (String × String))
    (old_metadata new_metadata : Metadata) : String × String :=
  (get_dropbox_filename root confs old_metadata,
   get_dropbox_filename root confs new_metadata)

/-- The metadata record Dropbox reports on a successful commit. -/
structure CommitResp where
  path : String
  rev : String
  modified : String
  bytes : Nat
deriving DecidableEq

/-- The commit request end_upload posts: the path of the commit URL and
the overwrite, upload_id and optional parent_rev parameters. -/
structure CommitParams where
  path : String
  overwrite : Bool
  upload_id : String
  parent_rev : Option String
deriving DecidableEq

/-- The replies the Dropbox backend gives to the two calls end_upload
may make: the bare zero-length upload_chunk call and the commit POST.
none models a rejection (a raised ErrorResponse / RESTSocketError). -/
structure DbxBackend where
  uploadReply : Option String
  commitReply : Option CommitResp
deriving DecidableEq

/-- Outcome of an end_upload invocation. -/
inductive UploadOutcome where
  | ok (extra : List (String × String)) (size : Nat) : UploadOutcome
  | driverError : UploadOutcome
  | serviceError : UploadOutcome
  | rawBackendError : UploadOutcome
deriving DecidableEq

/-- Observable result of running end_upload: the outcome (on success,
the updated extras and size), the conflict map afterwards, the commit
requests posted, the bare chunk uploads performed, and the conflict
warnings logged (as the pair of names each carries). -/
structure EndUploadOut where
  outcome : UploadOutcome
  conflicts : List (String × String)
  commits : List CommitParams
  chunkUploads : List (List Nat × Nat)
  warnings : List (String × String)
deriving DecidableEq

/-- Commit phase of end_upload (lines 197-230 of the Dropbox driver):
builds the params with overwrite False and the upload id, adds
parent_rev only when the stored rev is truthy (present and non-empty),
posts the commit exactly once, and on success removes upload_id from the
extras, stores the reported rev and modified, and records a conflict
entry plus a warning when the committed path differs from the requested
one. A rejected commit raises ServiceError with no state change. -/
def end_upload_commit (confs : List (String × String)) (md : Metadata)
    (bk : DbxBackend) (filename up_id : String)
    (chunks : List (List Nat × Nat)) : EndUploadOut :=
  let parent_rev :=
    match alookup "rev" md.extra with
    | some r => if r = "" then none else some r
    | none => none
  let params : CommitParams :=
    { path := filename, overwrite := false, upload_id := up_id,
      parent_rev := parent_rev }
  match bk.commitReply with
  | none =>
    { outcome := .serviceError, conflicts := confs, commits := [params],
      chunkUploads := chunks, warnings := [] }
  | some resp =>
    let extra2 :=
      ainsert "modified" resp.modified
        (ainsert "rev" resp.rev (aremove "upload_id" md.extra))
    if resp.path = filename then
      { outcome := .ok extra2 resp.bytes, conflicts := confs,
        commits := [params], chunkUploads := chunks, warnings := [] }
    else
      { outcome := .ok extra2 resp.bytes,
        conflicts := ainsert filename resp.path confs,
        commits := [params], chunkUploads := chunks,
        warnings := [(filename, resp.path)] }

/-- The end_upload handler of the Dropbox driver (lines 177-230): the
filename is resolved through the conflict map; with an upload id in the
extras the commit is posted; without one, a size of zero leads to a bare
zero-length upload_chunk call to obtain an id (whose failure propagates
as a raw backend exception), and any other size raises DriverError
before any backend call. -/
def end_upload (root : String) (confs : List (String × String))
    (md : Metadata) (bk : DbxBackend) : EndUploadOut :=
  let filename := get_dropbox_filename root confs md
  match alookup "upload_id" md.extra with
  | some up_id => end_upload_commit confs md bk filename up_id []
  | none =>
    if md.size = 0 then
      match bk.uploadReply with
      | none =>
        { outcome := .rawBackendError, conflicts := confs, commits := [],
          chunkUploads := [([], 0)], warnings := [] }
      | some up_id => end_upload_commit confs md bk filename up_id [([], 0)]
    else
      { outcome := .driverError, conflicts := confs, commits := [],
        chunkUploads := [], warnings := [] }

/-- Per-entry update decision of the Dropbox poll intake (CheckChanges,
lines 367-381): the stored modified extra is fetched with a None
default, parsed only when truthy, and update_file is invoked when it was
falsy (absent or empty) or when the parsed backend timestamp is strictly
greater. strptime abstracts the parsing of the timestamp format into a
linearly ordered value. -/
def check_dropbox_update_invoked (strptime : String → Nat)
    (extra : List (String × String)) (db_modified : String) : Bool :=
  match alookup "modified" extra with
  | none => true
  | some s => if s = "" then true else decide (strptime db_modified > strptime s)

/-- Stated from the words of the spec, for comparison with the code:
update when the stored modified timestamp is absent, or when the backend
timestamp is strictly newer than the stored one. -/
def spec_update_condition (strptime : String → Nat)
    (extra : List (String × String)) (db_modified : String) : Prop :=
  match alookup "modified" extra with
  | none => True
  | some s => strptime db_modified > strptime s

end Dropbox

namespace LocalStorage

/-- Name of the hidden temporary file used during an upload (to_tmp in
the local-storage driver): the basename gets a leading dot and the
.onitu-tmp extension, joined back onto the directory part. -/
def to_tmp (filename : String) : String :=
  let cs := filename.data
  let base := (cs.reverse.takeWhile (fun c => c ≠ '/')).reverse
  let dir := (cs.reverse.dropWhile (fun c => c ≠ '/')).reverse
  String.mk (dir ++ ('.' :: base) ++ ".onitu-tmp".data)

/-- The shared synced-status map maintained by set_status in the
local-storage driver: a None status removes the entry for the path, any
other status stores it under the path. -/
def set_status (data : List (String × String)) (abs_path : String)
    (status : Option String) : List (String × String) :=
  match status with
  | none => aremove abs_path data
  | some s => ainsert abs_path s data

/-- The delete_file handler of the local-storage driver (lines 233-240):
unlink of the path, which raises when the file does not exist (none, the
ServiceError case, with no state change since the exception is raised
before any mutation), then removal of the status entry. -/
def delete_file (fs : List (String × List Nat))
    (st : List (String × String)) (path : String) :
    Option (List (String × List Nat) × List (String × String)) :=
  match alookup path fs with
  | none => none
  | some _ => some (aremove path fs, set_status st path none)

/-- The move_file handler of the local-storage driver (lines 244-253):
renames the old path to the new one (raising, with no state change, when
the old path does not exist), then applies the two status updates the
source makes - both on the old path: first None, then synced. -/
def move_file (fs : List (String × List Nat))
    (st : List (String × String)) (old_path new_path : String) :
    Option (List (String × List Nat) × List (String × String)) :=
  match alookup old_path fs with
  | none => none
  | some content =>
    some (ainsert new_path content (aremove old_path fs),
          set_status (set_status st old_path none) old_path (some "synced"))

/-- The end_upload handler of the local-storage driver (lines 192-217):
renames the temporary file onto the final path (raising ServiceError,
with no state change, when the temporary file is missing), stores the
new mtime in the extras under the revision key, and marks the path
synced. Returns the filesystem, the status map and the extras
afterwards. -/
def end_upload (fs : List (String × List Nat))
    (st : List (String × String)) (md : Metadata) (mtime : String) :
    Option (List (String × List Nat) × List (String × String) ×
            List (String × String)) :=
  match alookup (to_tmp md.filename) fs with
  | none => none
  | some c =>
    some (ainsert md.filename c (aremove (to_tmp md.filename) fs),
          set_status st md.filename (some "synced"),
          ainsert "revision" mtime md.extra)

/-- A stored file record as the startup scan sees it: the filename and
the set of services holding the latest version. -/
structure FileRec where
  filename : String
  uptodate : List String
deriving DecidableEq

/-- The deletion decisions of the startup scan (check_changes, lines
100-106 of the local-storage driver): among the recorded files whose
path was not seen on disk, delete_file is propagated exactly for those
whose uptodate set contains the name of this driver. -/
def check_changes_deletions (driver_name : String) (records : List FileRec)
    (on_disk : List String) : List FileRec :=
  (records.filter (fun r => r.filename ∉ on_disk)).filter
    (fun r => driver_name ∈ r.uptodate)

end LocalStorage

theorem end_upload_commit_ok_shape (confs : List (String × String))
    (md : Metadata) (bk : Dropbox.DbxBackend) (filename up_id : String)
    (chunks : List (List Nat × Nat)) (ex : List (String × String)) (sz : Nat)
    (h : (Dropbox.end_upload_commit confs md bk filename up_id chunks).outcome
        = .ok ex sz) :
    ∃ resp, bk.commitReply = some resp ∧
      ex = ainsert "modified" resp.modified
            (ainsert "rev" resp.rev (aremove "upload_id" md.extra)) ∧
      sz = resp.bytes := by
  unfold Dropbox.end_upload_commit at h
  cases hr : bk.commitReply with
  | none =>
    rw [hr] at h
    exact absurd h (by simp)
  | some resp =>
    rw [hr] at h
    refine ⟨resp, rfl, ?_⟩
    by_cases hp : resp.path = filename
    · simp [hp] at h
      exact ⟨h.1.symm, h.2.symm⟩
    · simp [hp] at h
      exact ⟨h.1.symm, h.2.symm⟩

theorem end_upload_ok_shape (root : String) (confs : List (String × String))
    (md : Metadata) (bk : Dropbox.DbxBackend) (ex : List (String × String))
    (sz : Nat)
    (h : (Dropbox.end_upload root confs md bk).outcome = .ok ex sz) :
    ∃ resp, bk.commitReply = some resp ∧
      ex = ainsert "modified" resp.modified
            (ainsert "rev" resp.rev (aremove "upload_id" md.extra)) ∧
      sz = resp.bytes := by
  unfold Dropbox.end_upload at h
  cases hup : alookup "upload_id" md.extra with
  | some u =>
    rw [hup] at h
    exact end_upload_commit_ok_shape confs md bk _ u [] ex sz h
  | none =>
    rw [hup] at h
    dsimp only at h
    by_cases hs : md.size = 0
    · rw [if_pos hs] at h
      cases hu : bk.uploadReply with
      | none =>
        rw [hu] at h
        exact absurd h (by simp)
      | some u =>
        rw [hu] at h
        exact end_upload_commit_ok_shape confs md bk _ u [([], 0)] ex sz h
    · rw [if_neg hs] at h
      exact absurd h (by simp)

theorem end_upload_commit_commits_path (confs : List (String × String))
    (md : Metadata) (bk : Dropbox.DbxBackend) (filename up_id : String)
    (chunks : List (List Nat × Nat)) :
    ∀ p ∈ (Dropbox.end_upload_commit confs md bk filename up_id chunks).commits,
      p.path = filename := by
  unfold Dropbox.end_upload_commit
  cases hr : bk.commitReply with
  | none => simp
  | some resp =>
    by_cases hp : resp.path = filename
    · simp [hp]
    · simp [hp]

theorem end_upload_commits_path (root : String) (confs : List (String × String))
    (md : Metadata) (bk : Dropbox.DbxBackend) :
    ∀ p ∈ (Dropbox.end_upload root confs md bk).commits,
      p.path = Dropbox.get_dropbox_filename root confs md := by
  unfold Dropbox.end_upload
  cases hup : alookup "upload_id" md.extra with
  | some u => exact end_upload_commit_commits_path confs md bk _ u []
  | none =>
    dsimp only
    by_cases hs : md.size = 0
    · rw [if_pos hs]
      cases hu : bk.uploadReply with
      | none => simp
      | some u => exact end_upload_commit_commits_path confs md bk _ u [([], 0)]
    · rw [if_neg hs]
      simp

theorem end_upload_commit_conflict_write (confs : List (String × String))
    (md : Metadata) (bk : Dropbox.DbxBackend) (filename up_id : String)
    (chunks : List (List Nat × Nat)) (resp : Dropbox.CommitResp)
    (hr : bk.commitReply = some resp) (hne : resp.path ≠ filename) :
    alookup filename
        (Dropbox.end_upload_commit confs md bk filename up_id chunks).conflicts
      = some resp.path ∧
    (Dropbox.end_upload_commit confs md bk filename up_id chunks).warnings
      = [(filename, resp.path)] := by
  unfold Dropbox.end_upload_commit
  rw [hr]
  simp [hne, alookup_ainsert_self]

/-- Claim C3, counterexample: the end_upload handler of the
local-storage driver, run on a file whose temporary upload file exists
(so the handler returns without raising), leaves extras that hold the
mtime under the revision key and hold no rev key at all; the claimed
universally-present non-empty rev value is absent. -/
theorem local_end_upload_leaves_no_rev :
    LocalStorage.end_upload [(".a.onitu-tmp", [])] [] ⟨"a", 0, []⟩ "1000"
      = some ([("a", [])], [("a", "synced")], [("revision", "1000")]) ∧
    alookup "rev" [("revision", "1000")] = (none : Option String) := by
  constructor
  · decide
  · decide

/-- Claim C3 as amended: restricted to the Dropbox driver, whose
end_upload does establish the claimed postcondition - whenever it
returns without raising, the extras hold rev equal to the revision
reported by the backend on the commit (non-empty whenever the backend
revision string is) and hold no upload_id key; the local-storage driver
records the mtime under revision instead and never uses upload_id. -/
theorem dropbox_end_upload_rev_present_no_upload_id (root : String)
    (confs : List (String × String)) (md : Metadata)
    (bk : Dropbox.DbxBackend) (ex : List (String × String)) (sz : Nat)
    (h : (Dropbox.end_upload root confs md bk).outcome = .ok ex sz) :
    alookup "upload_id" ex = none ∧
    ∃ resp, bk.commitReply = some resp ∧ alookup "rev" ex = some resp.rev ∧
      sz = resp.bytes := by
  obtain ⟨resp, hresp, hex, hsz⟩ := end_upload_ok_shape root confs md bk ex sz h
  subst hex
  constructor
  · rw [alookup_ainsert_ne (by decide), alookup_ainsert_ne (by decide)]
    exact alookup_aremove_self _ _
  · refine ⟨resp, hresp, ?_, hsz⟩
    rw [alookup_ainsert_ne (by decide), alookup_ainsert_self]

/-- Witness for the amended claim C3 at a concrete successful upload. -/
theorem dropbox_end_upload_rev_present_no_upload_id_witness :
    (Dropbox.end_upload "/r/" [] ⟨"a", 1, [("upload_id", "u")]⟩
        ⟨none, some ⟨"/r/a", "r1", "ts", 1⟩⟩).outcome
      = .ok [("modified", "ts"), ("rev", "r1")] 1 ∧
    (alookup "upload_id" [("modified", "ts"), ("rev", "r1")]
        = (none : Option String) ∧
      ∃ resp, (Dropbox.DbxBackend.mk none (some ⟨"/r/a", "r1", "ts", 1⟩)).commitReply
            = some resp ∧
          alookup "rev" [("modified", "ts"), ("rev", "r1")] = some resp.rev ∧
          1 = resp.bytes) :=
  ⟨by decide,
    dropbox_end_upload_rev_present_no_upload_id "/r/" [] ⟨"a", 1, [("upload_id", "u")]⟩
      ⟨none, some ⟨"/r/a", "r1", "ts", 1⟩⟩ [("modified", "ts"), ("rev", "r1")] 1
      (by decide)⟩

/-- Claim C4, counterexample: a metadata record whose extras hold the
rev key with the empty string - the key is present - yields a commit
posted without parent_rev, because the source guards the parameter with
a truthiness test rather than a presence test. -/
theorem dropbox_end_upload_empty_rev_omits_parent_rev :
    alookup "rev" [("upload_id", "u"), ("rev", "")] = some "" ∧
    (Dropbox.end_upload "/r/" [] ⟨"a", 1, [("upload_id", "u"), ("rev", "")]⟩
        ⟨none, none⟩).commits.map Dropbox.CommitParams.parent_rev
      = [none] ∧
    ([none] : List (Option String)) ≠ [some ""] := by
  refine ⟨by decide, by decide, by decide⟩

/-- Claim C4 as amended: end_upload posts the commit with parent_rev set
to the stored rev when that key is present with a non-empty value, and
omits parent_rev when the key is absent or holds the empty string; the
commit is posted exactly once, and when the backend rejects it the
handler surfaces ServiceError without retrying the commit. -/
theorem dropbox_end_upload_parent_rev_truthy_no_retry (root : String)
    (confs : List (String × String)) (md : Metadata)
    (bk : Dropbox.DbxBackend) (uid : String)
    (h : alookup "upload_id" md.extra = some uid) :
    (Dropbox.end_upload root confs md bk).commits.length = 1 ∧
    (∀ r, alookup "rev" md.extra = some r → r ≠ "" →
      (Dropbox.end_upload root confs md bk).commits.map
        Dropbox.CommitParams.parent_rev = [some r]) ∧
    ((alookup "rev" md.extra = none ∨ alookup "rev" md.extra = some "") →
      (Dropbox.end_upload root confs md bk).commits.map
        Dropbox.CommitParams.parent_rev = [none]) ∧
    (bk.commitReply = none →
      (Dropbox.end_upload root confs md bk).outcome = .serviceError) := by
  unfold Dropbox.end_upload
  rw [h]
  unfold Dropbox.end_upload_commit
  refine ⟨?_, ?_, ?_, ?_⟩
  · cases hr : bk.commitReply with
    | none => simp
    | some resp =>
      by_cases hp : resp.path = Dropbox.get_dropbox_filename root confs md <;>
        simp [hp]
  · intro r hrev hne
    cases hr : bk.commitReply with
    | none => simp [hrev, hne]
    | some resp =>
      by_cases hp : resp.path = Dropbox.get_dropbox_filename root confs md <;>
        simp [hrev, hne, hp]
  · intro hrev
    cases hr : bk.commitReply with
    | none => rcases hrev with hrev | hrev <;> simp [hrev]
    | some resp =>
      by_cases hp : resp.path = Dropbox.get_dropbox_filename root confs md <;>
        rcases hrev with hrev | hrev <;> simp [hrev, hp]
  · intro hcontra
    rw [hcontra]

/-- Witness for the amended claim C4: a present non-empty rev is posted
as parent_rev, a rejected commit yields ServiceError with exactly one
commit posted. -/
theorem dropbox_end_upload_parent_rev_truthy_no_retry_witness :
    alookup "upload_id" [("upload_id", "u"), ("rev", "r1")] = some "u" ∧
    (Dropbox.end_upload "/r/" [] ⟨"a", 1, [("upload_id", "u"), ("rev", "r1")]⟩
        ⟨none, none⟩).commits.map Dropbox.CommitParams.parent_rev
      = [some "r1"] ∧
    (Dropbox.end_upload "/r/" [] ⟨"a", 1, [("upload_id", "u"), ("rev", "r1")]⟩
        ⟨none, none⟩).outcome = .serviceError := by
  refine ⟨by decide, ?_, ?_⟩
  · exact (dropbox_end_upload_parent_rev_truthy_no_retry "/r/" []
      ⟨"a", 1, [("upload_id", "u"), ("rev", "r1")]⟩ ⟨none, none⟩ "u"
      (by decide)).2.1 "r1" (by decide) (by decide)
  · exact (dropbox_end_upload_parent_rev_truthy_no_retry "/r/" []
      ⟨"a", 1, [("upload_id", "u"), ("rev", "r1")]⟩ ⟨none, none⟩ "u"
      (by decide)).2.2.2 rfl

/-- Claim C5, counterexample: a conflict entry for the root-prefixed
name exists but maps it to the empty string, yet the driver does not use
the mapped backend name - the source guards the resolution with a
truthiness test (if conflict_name:), so the empty mapped name is ignored
and the operation keeps the root-prefixed name, against the claim that
the mapped name is used whenever a conflict entry exists. -/
theorem dropbox_empty_conflict_entry_not_used :
    Dropbox.conflicting_filename [("/r/a", "")]
        (Dropbox.root_prefixed_filename "/r/" "a") = some "" ∧
    Dropbox.get_chunk_request_path "/r/" [("/r/a", "")] ⟨"a", 1, []⟩
      = "/r/a" ∧
    ("/r/a" : String) ≠ "" := by
  refine ⟨by decide, by decide, by decide⟩

/-- Claim C5 as amended: every remote operation of the Dropbox driver
that names a file (get_chunk, upload_chunk, end_upload, move_file,
delete_file) first resolves the Onitu filename through the conflict map
and uses the mapped backend name when an entry with a non-empty (truthy)
mapped name exists - an entry mapping to the empty string is ignored -
and when end_upload succeeds with a committed path differing from the
requested one, a conflict entry mapping the requested name to the
committed one is written and a warning carrying the exact pair of names
is logged. -/
theorem dropbox_ops_resolve_conflict_map (root : String)
    (confs : List (String × String)) (md new_md : Metadata)
    (bk : Dropbox.DbxBackend) (b : String)
    (hc : Dropbox.conflicting_filename confs
        (Dropbox.root_prefixed_filename root md.filename) = some b)
    (hbne : b ≠ "") :
    Dropbox.get_chunk_request_path root confs md = b ∧
    Dropbox.upload_chunk_resolved_name root confs md = b ∧
    Dropbox.delete_file_request_path root confs md = b ∧
    (Dropbox.move_file_request_paths root confs md new_md).1 = b ∧
    (Dropbox.move_file_request_paths root confs md new_md).2
      = Dropbox.get_dropbox_filename root confs new_md ∧
    (∀ p ∈ (Dropbox.end_upload root confs md bk).commits, p.path = b) ∧
    (∀ resp ex sz, bk.commitReply = some resp →
      (Dropbox.end_upload root confs md bk).outcome = .ok ex sz →
      resp.path ≠ b →
      alookup b (Dropbox.end_upload root confs md bk).conflicts
          = some resp.path ∧
        (Dropbox.end_upload root confs md bk).warnings = [(b, resp.path)]) := by
  have hb : Dropbox.get_dropbox_filename root confs md = b := by
    unfold Dropbox.get_dropbox_filename
    dsimp only
    rw [hc]
    simp [hbne]
  refine ⟨hb, hb, hb, hb, rfl, ?_, ?_⟩
  · intro p hp
    rw [← hb]
    exact end_upload_commits_path root confs md bk p hp
  · intro resp ex sz hr hok hne
    rw [← hb] at hne ⊢
    unfold Dropbox.end_upload at hok ⊢
    cases hup : alookup "upload_id" md.extra with
    | some u =>
      exact end_upload_commit_conflict_write confs md bk _ u [] resp hr hne
    | none =>
      dsimp only
      rw [hup] at hok
      dsimp only at hok
      by_cases hs : md.size = 0
      · rw [if_pos hs] at hok ⊢
        cases hu : bk.uploadReply with
        | none =>
          rw [hu] at hok
          exact absurd hok (by simp)
        | some u =>
          exact end_upload_commit_conflict_write confs md bk _ u [([], 0)]
            resp hr hne
      · rw [if_neg hs] at hok
        exact absurd hok (by simp)

/-- Witness for the amended claim C5 at a concrete conflict map,
metadata and backend reply whose committed path differs from the
requested one. -/
theorem dropbox_ops_resolve_conflict_map_witness :
    Dropbox.conflicting_filename [("/r/a", "/r/A")]
        (Dropbox.root_prefixed_filename "/r/" "a") = some "/r/A" ∧
    ("/r/A" : String) ≠ "" ∧
    Dropbox.get_chunk_request_path "/r/" [("/r/a", "/r/A")]
        ⟨"a", 1, [("upload_id", "u")]⟩ = "/r/A" ∧
    Dropbox.delete_file_request_path "/r/" [("/r/a", "/r/A")]
        ⟨"a", 1, [("upload_id", "u")]⟩ = "/r/A" ∧
    alookup "/r/A" (Dropbox.end_upload "/r/" [("/r/a", "/r/A")]
        ⟨"a", 1, [("upload_id", "u")]⟩
        ⟨none, some ⟨"/r/X", "r1", "ts", 1⟩⟩).conflicts = some "/r/X" ∧
    (Dropbox.end_upload "/r/" [("/r/a", "/r/A")]
        ⟨"a", 1, [("upload_id", "u")]⟩
        ⟨none, some ⟨"/r/X", "r1", "ts", 1⟩⟩).warnings
      = [("/r/A", "/r/X")] := by
  have hmain := dropbox_ops_resolve_conflict_map "/r/" [("/r/a", "/r/A")]
    ⟨"a", 1, [("upload_id", "u")]⟩ ⟨"b", 0, []⟩
    ⟨none, some ⟨"/r/X", "r1", "ts", 1⟩⟩ "/r/A" (by decide) (by decide)
  have hlast := hmain.2.2.2.2.2.2 ⟨"/r/X", "r1", "ts", 1⟩
    [("modified", "ts"), ("rev", "r1")] 1 rfl (by decide) (by decide)
  exact ⟨by decide, by decide, hmain.1, hmain.2.2.1, hlast.1, hlast.2⟩

/-- Claim C6, counterexample: an entry whose stored modified extra is
present but empty triggers update_file although the spec condition -
stored timestamp absent, or backend timestamp strictly newer - does not
hold there: the source tests truthiness, not absence. -/
theorem dropbox_check_update_on_empty_modified :
    Dropbox.check_dropbox_update_invoked String.length [("modified", "")] ""
      = true ∧
    ¬ Dropbox.spec_update_condition String.length [("modified", "")] "" := by
  constructor
  · decide
  · intro hcond
    simp [Dropbox.spec_update_condition, alookup] at hcond

/-- Claim C6 as amended: the poll intake invokes update_file exactly
when the stored modified extra is absent or empty, or when the parsed
backend timestamp is strictly greater than the parsed stored one;
entries with an equal or older backend timestamp and a non-empty stored
timestamp trigger no update. -/
theorem dropbox_check_update_iff (strptime : String → Nat)
    (extra : List (String × String)) (db_modified : String) :
    Dropbox.check_dropbox_update_invoked strptime extra db_modified = true ↔
      (alookup "modified" extra = none ∨ alookup "modified" extra = some "" ∨
        ∃ s, alookup "modified" extra = some s ∧ s ≠ "" ∧
          strptime db_modified > strptime s) := by
  unfold Dropbox.check_dropbox_update_invoked
  cases hm : alookup "modified" extra with
  | none => simp
  | some s =>
    by_cases hs : s = ""
    · subst hs
      simp
    · simp [hs]

/-- Claim C7, counterexample: deleting a concrete file succeeds once,
and the second invocation of the delete_file handler on the resulting
state does not succeed - the unlink of the now-missing path raises, so
the handler surfaces ServiceError instead of being a no-op. -/
theorem local_delete_file_second_raises :
    LocalStorage.delete_file [("a", [1])] [("a", "synced")] "a"
      = some ([], []) ∧
    LocalStorage.delete_file [] [] "a" = none := by
  constructor
  · decide
  · decide

/-- Claim C7 as amended: after a successful delete_file, a second
invocation on the resulting state raises ServiceError (the unlink of a
missing file); since the exception is raised before any mutation, the
backend state and the status map are left unchanged by the second
invocation rather than by a successful no-op. -/
theorem local_delete_file_twice_errors (fs : List (String × List Nat))
    (st : List (String × String)) (path : String)
    (fs' : List (String × List Nat)) (st' : List (String × String))
    (h : LocalStorage.delete_file fs st path = some (fs', st')) :
    LocalStorage.delete_file fs' st' path = none := by
  unfold LocalStorage.delete_file at h ⊢
  cases hl : alookup path fs with
  | none =>
    rw [hl] at h
    exact absurd h (by simp)
  | some c =>
    rw [hl] at h
    simp only [Option.some.injEq, Prod.mk.injEq] at h
    obtain ⟨h1, h2⟩ := h
    rw [← h1, alookup_aremove_self]

/-- Witness for the amended claim C7 at a concrete file. -/
theorem local_delete_file_twice_errors_witness :
    LocalStorage.delete_file [("a", [1]), ("b", [2])] [("a", "synced")] "a"
      = some ([("b", [2])], []) ∧
    LocalStorage.delete_file [("b", [2])] [] "a" = none :=
  ⟨by decide,
    local_delete_file_twice_errors [("a", [1]), ("b", [2])] [("a", "synced")]
      "a" [("b", [2])] [] (by decide)⟩

/-- Claim C8: when end_upload runs without an upload_id in the extras,
a size of zero leads to a single zero-length chunk upload whose id is
used for the commit, which succeeds when the backend accepts it; any
non-zero size raises DriverError with no commit posted. -/
theorem dropbox_end_upload_without_upload_id (root : String)
    (confs : List (String × String)) (md : Metadata)
    (bk : Dropbox.DbxBackend)
    (h : alookup "upload_id" md.extra = none) :
    (md.size = 0 → ∀ uid, bk.uploadReply = some uid →
      (Dropbox.end_upload root confs md bk).chunkUploads = [([], 0)] ∧
      (Dropbox.end_upload root confs md bk).commits.map
        Dropbox.CommitParams.upload_id = [uid] ∧
      (∀ resp, bk.commitReply = some resp →
        (Dropbox.end_upload root confs md bk).outcome
          = .ok (ainsert "modified" resp.modified
              (ainsert "rev" resp.rev (aremove "upload_id" md.extra)))
            resp.bytes)) ∧
    (md.size ≠ 0 →
      (Dropbox.end_upload root confs md bk).outcome = .driverError ∧
      (Dropbox.end_upload root confs md bk).commits = []) := by
  unfold Dropbox.end_upload
  rw [h]
  dsimp only
  constructor
  · intro hs uid hu
    rw [if_pos hs, hu]
    dsimp only
    unfold Dropbox.end_upload_commit
    cases hr : bk.commitReply with
    | none =>
      refine ⟨by simp, by simp, ?_⟩
      intro resp hresp
      exact absurd hresp (by simp)
    | some resp =>
      refine ⟨?_, ?_, ?_⟩
      · by_cases hp : resp.path = Dropbox.get_dropbox_filename root confs md <;>
          simp [hp]
      · by_cases hp : resp.path = Dropbox.get_dropbox_filename root confs md <;>
          simp [hp]
      · intro resp2 hresp2
        have hre : resp2 = resp := (Option.some.inj hresp2).symm
        subst hre
        by_cases hp : resp2.path = Dropbox.get_dropbox_filename root confs md <;>
          simp [hp]
  · intro hs
    rw [if_neg hs]
    exact ⟨rfl, rfl⟩

/-- Witness for claim C8: a zero-size file without upload_id commits
through a single zero-length chunk, a non-zero-size file without
upload_id fails with DriverError. -/
theorem dropbox_end_upload_without_upload_id_witness :
    (Dropbox.end_upload "/r/" [] ⟨"a", 0, []⟩
        ⟨some "u0", some ⟨"/r/a", "r1", "ts", 0⟩⟩).chunkUploads
      = [([], 0)] ∧
    (Dropbox.end_upload "/r/" [] ⟨"a", 0, []⟩
        ⟨some "u0", some ⟨"/r/a", "r1", "ts", 0⟩⟩).commits.map
      Dropbox.CommitParams.upload_id = ["u0"] ∧
    (Dropbox.end_upload "/r/" [] ⟨"a", 0, []⟩
        ⟨some "u0", some ⟨"/r/a", "r1", "ts", 0⟩⟩).outcome
      = .ok (ainsert "modified" "ts"
          (ainsert "rev" "r1" (aremove "upload_id" ([] : List (String × String)))))
        0 ∧
    (Dropbox.end_upload "/r/" [] ⟨"a", 5, []⟩
        ⟨some "u0", some ⟨"/r/a", "r1", "ts", 0⟩⟩).outcome = .driverError := by
  have h0 := (dropbox_end_upload_without_upload_id "/r/" [] ⟨"a", 0, []⟩
    ⟨some "u0", some ⟨"/r/a", "r1", "ts", 0⟩⟩ (by decide)).1 rfl "u0" rfl
  have h5 := (dropbox_end_upload_without_upload_id "/r/" [] ⟨"a", 5, []⟩
    ⟨some "u0", some ⟨"/r/a", "r1", "ts", 0⟩⟩ (by decide)).2 (by decide)
  exact ⟨h0.1, h0.2.1, h0.2.2 ⟨"/r/a", "r1", "ts", 0⟩ rfl, h5.1⟩

/-- Claim C9: during the startup scan of the local-storage driver, a
recorded file absent from the local folder has its deletion propagated
exactly when the uptodate set of its record contains the name of this
driver; records the driver never held up to date are left untouched. -/
theorem local_check_changes_deletes_iff (driver_name : String)
    (records : List LocalStorage.FileRec) (on_disk : List String)
    (r : LocalStorage.FileRec) :
    r ∈ LocalStorage.check_changes_deletions driver_name records on_disk ↔
      r ∈ records ∧ r.filename ∉ on_disk ∧ driver_name ∈ r.uptodate := by
  simp only [LocalStorage.check_changes_deletions, List.mem_filter,
    decide_eq_true_eq]
  tauto

/-- Claim C10: after a successful move_file of the local-storage driver,
the synced-status map holds the old path with status synced, and holds
no entry for the new path (given the new path is distinct from the old
one and had no prior entry): both post-move status updates of the source
target the old path, never the new one. -/
theorem local_move_file_status_on_old_only (fs : List (String × List Nat))
    (st : List (String × String)) (old_path new_path : String)
    (fs' : List (String × List Nat)) (st' : List (String × String))
    (h : LocalStorage.move_file fs st old_path new_path = some (fs', st'))
    (hne : new_path ≠ old_path) (hnew : alookup new_path st = none) :
    alookup old_path st' = some "synced" ∧ alookup new_path st' = none := by
  unfold LocalStorage.move_file at h
  cases hl : alookup old_path fs with
  | none =>
    rw [hl] at h
    exact absurd h (by simp)
  | some c =>
    rw [hl] at h
    simp only [Option.some.injEq, Prod.mk.injEq] at h
    obtain ⟨h1, h2⟩ := h
    rw [← h2]
    unfold LocalStorage.set_status
    constructor
    · exact alookup_ainsert_self _ _ _
    · rw [alookup_ainsert_ne hne.symm, alookup_aremove_ne hne.symm]
      exact hnew

/-- Witness for claim C10 at a concrete move. -/
theorem local_move_file_status_on_old_only_witness :
    LocalStorage.move_file [("a", [1])] [] "a" "b"
      = some ([("b", [1])], [("a", "synced")]) ∧
    ("b" : String) ≠ "a" ∧
    alookup "b" ([] : List (String × String)) = none ∧
    (alookup "a" [("a", "synced")] = some "synced" ∧
      alookup "b" [("a", "synced")] = (none : Option String)) :=
  ⟨by decide, by decide, by decide,
    local_move_file_status_on_old_only [("a", [1])] [] "a" "b" [("b", [1])]
      [("a", "synced")] (by decide) (by decide) (by decide)⟩
